import Mathlib

/-!
Shallow embedding of the candidate scoring and pipeline-stage derivation
logic of the recruitment web application.

Conventions of the embedding:
* JavaScript numbers are modelled as `ℚ` (all scores and weights in the
  source are small decimals; `0.65` becomes `65/100`, etc.).
* A nullable field is an `Option`.
* A JavaScript numeric expression that can evaluate to `NaN` (the source
  divides by the length of a possibly-empty list) is modelled as
  `Option ℚ`, with `none` standing for `NaN`; arithmetic on such a value
  propagates `none`, and every `NaN <op> x` comparison is `false`, exactly
  as in JavaScript.
* JavaScript truthiness on a nullable number (`!x`, `x && ...`, `x || 0`)
  is modelled explicitly: `none` and `some 0` are falsy.
* `recruitment_task_status` is `TEXT` in the store, but its schema comment
  and every write site restrict it to `task_sent`, `task_completed` or
  `NULL`, so it is modelled as `Option TaskStatus`; likewise
  `candidate_decision` is `offered`, `rejected` or `NULL`.
* Interview `status` is kept as a `String` because the source switches on
  it with a default branch for unknown values.
* A soft-skill assessment (`ai_insights.overall_assessment`) is a JSON
  object mapping category names to numbers; it is modelled as an
  association list `List (String × ℚ)` (`Object.values` reads the values
  in insertion order; only their sum and count are ever used).
-/

namespace Recruit

/-- One interview record, restricted to the fields the scoring and stage
logic reads: its `status` string and the soft-skill assessment mapping
found at `ai_insights.overall_assessment` (`none` when `ai_insights` is
absent or has no `overall_assessment` key). -/
structure Interview where
  status : String
  overall_assessment : Option (List (String × ℚ))
  deriving DecidableEq

/-- The two non-null values of `applications.recruitment_task_status`
(per the schema comment in `add-recruitment-task-columns.sql`). -/
inductive TaskStatus
  | task_sent
  | task_completed
  deriving DecidableEq

/-- The two non-null values of `applications.candidate_decision` (the only
values ever written by `makeCandidateDecision`). -/
inductive Decision
  | offered
  | rejected
  deriving DecidableEq

/-- An application snapshot, restricted to the fields the scoring, gating
and stage-derivation logic reads. -/
structure Application where
  total_score : Option ℚ
  interviews : List Interview
  recruitment_task_status : Option TaskStatus
  candidate_decision : Option Decision
  deriving DecidableEq

/-- JavaScript truthiness test on a nullable number: `null` and `0` are
falsy (`!app.total_score`, `app.total_score || 0`, `app.total_score && _`
in the source all use this). -/
def numFalsy : Option ℚ → Bool
  | none => true
  | some t => decide (t = 0)

/-- The `{technical, softSkills, combined}` record returned by the two
score-combination functions.  `softSkills` and `combined` are `Option ℚ`
because the source can produce `NaN` for them (modelled as `none`). -/
structure Scores where
  technical : ℚ
  softSkills : Option ℚ
  combined : Option ℚ
  deriving DecidableEq

/-- Function `calculateCombinedScore` from the candidate ranking page:
`technicalScore = app.total_score || 0`; the *last* element of
`app.interviews` is taken; if it has an `overall_assessment`, the
soft-skill score is `(sum of values / number of values) * 10` (which is
`NaN`, i.e. `none`, when the mapping is empty), otherwise `0`; finally
`combined = technicalScore * 0.65 + softSkillsScore * 0.35`. -/
def calculateCombinedScore (app : Application) : Scores :=
  let technicalScore : ℚ := app.total_score.getD 0
  let interview : Option Interview := app.interviews.getLast?
  let softSkillsScore : Option ℚ :=
    match interview with
    | some iv =>
      match iv.overall_assessment with
      | some m =>
        let softSkillsScores := m.map Prod.snd
        if softSkillsScores.length = 0 then none
        else some ((softSkillsScores.sum / (softSkillsScores.length : ℚ)) * 10)
      | none => some 0
    | none => some 0
  let combinedScore : Option ℚ :=
    softSkillsScore.map (fun s => technicalScore * (65/100) + s * (35/100))
  { technical := technicalScore
    softSkills := softSkillsScore
    combined := combinedScore }

/-- Function `calculateScores` from the candidate detail page: identical arithmetic
to `calculateCombinedScore`, but it reads `app.interviews?.[0]` — the
*first* interview in the list — instead of the last one. -/
def calculateScores (app : Application) : Scores :=
  let technicalScore : ℚ := app.total_score.getD 0
  let interview : Option Interview := app.interviews.head?
  let softSkillsScore : Option ℚ :=
    match interview with
    | some iv =>
      match iv.overall_assessment with
      | some m =>
        let softSkillsScores := m.map Prod.snd
        if softSkillsScores.length = 0 then none
        else some ((softSkillsScores.sum / (softSkillsScores.length : ℚ)) * 10)
      | none => some 0
    | none => some 0
  let combinedScore : Option ℚ :=
    softSkillsScore.map (fun s => technicalScore * (65/100) + s * (35/100))
  { technical := technicalScore
    softSkills := softSkillsScore
    combined := combinedScore }

/-- The record returned by `getInterviewStatus` on the ranking page
(restricted to the fields other logic reads: the display string,
`hasData`, and the interview carried along when it is completed). -/
structure InterviewStatusInfo where
  status : String
  hasData : Bool
  interview : Option Interview
  deriving DecidableEq

/-- Function `getInterviewStatus` from the ranking page: looks at the *last*
interview; `hasData` is true only when its status is `"completed"`
(unknown statuses fall into the default branch with `hasData: false`). -/
def getInterviewStatus (interviews : List Interview) : InterviewStatusInfo :=
  match interviews.getLast? with
  | none => ⟨"Brak rozmowy", false, none⟩
  | some latestInterview =>
    if latestInterview.status = "completed" then
      ⟨"Zakończona", true, some latestInterview⟩
    else if latestInterview.status = "scheduled" then
      ⟨"Zaplanowana", false, none⟩
    else if latestInterview.status = "in_progress" then
      ⟨"W trakcie", false, none⟩
    else
      ⟨"Nieznany status", false, none⟩

/-- Function `getInterviewScore` from the ranking page: `null` when the interview
has no `overall_assessment`; otherwise the mean of the values of the mapping
when there is at least one, and `null` for an empty mapping (this site
guards the division by zero). -/
def getInterviewScore (interview : Interview) : Option ℚ :=
  match interview.overall_assessment with
  | none => none
  | some m =>
    let scores := m.map Prod.snd
    if 0 < scores.length then some (scores.sum / (scores.length : ℚ)) else none

/-- The `{status, color}` record returned by `getQualificationStatus`. -/
structure QualificationInfo where
  status : String
  color : String
  deriving DecidableEq

/-- Function `getQualificationStatus` from the ranking page: `!score` (null or 0)
gives "Nie oceniono"; a score `>= 25` gives the qualified label; anything
else gives "Nie kwalifikuje się". -/
def getQualificationStatus (score : Option ℚ) : QualificationInfo :=
  if numFalsy score then ⟨"Nie oceniono", "bg-gray-100"⟩
  else if 25 ≤ score.getD 0 then
    ⟨"Kwalifikuje się do AI interview", "bg-green-100 text-green-800"⟩
  else ⟨"Nie kwalifikuje się", "bg-red-100 text-red-800"⟩

/-- The `{canSend, status}` record returned by `getTaskStatus`. -/
structure TaskStatusInfo where
  canSend : Bool
  status : Option String
  deriving DecidableEq

/-- Function `getTaskStatus` from the ranking page: `isEligible` is
`scores.combined >= 50` (false when `combined` is `NaN`); an ineligible
application can never send; an eligible one can send exactly while
`recruitment_task_status` is null (`task_sent` and `task_completed` both
block re-sending). -/
def getTaskStatus (app : Application) : TaskStatusInfo :=
  let scores := calculateCombinedScore app
  let isEligible : Bool :=
    match scores.combined with
    | none => false
    | some c => decide (50 ≤ c)
  if !isEligible then ⟨false, none⟩
  else
    match app.recruitment_task_status with
    | none => ⟨true, some "not_sent"⟩
    | some TaskStatus.task_sent => ⟨false, some "waiting_for_solution"⟩
    | some TaskStatus.task_completed => ⟨false, some "completed"⟩

/-- The `{text, color}` record returned by `getRecommendationBadge`. -/
structure Badge where
  text : String
  color : String
  deriving DecidableEq

/-- Function `getRecommendationBadge` from the ranking page: `combined <= 20` is
"not recommended", `20 < combined <= 50` is "semi-recommended", and
everything else — including a `NaN` combined score, for which both `<=`
comparisons are false — is "recommended". -/
def getRecommendationBadge (app : Application) : Badge :=
  let scores := calculateCombinedScore app
  match scores.combined with
  | none => ⟨"✅ Rekomendowany", "bg-green-500 text-white"⟩
  | some combinedScore =>
    if combinedScore ≤ 20 then ⟨"❌ Nie rekomendowany", "bg-red-500 text-white"⟩
    else if combinedScore ≤ 50 then ⟨"🤔 Semi-rekomendowany", "bg-yellow-500 text-white"⟩
    else ⟨"✅ Rekomendowany", "bg-green-500 text-white"⟩

/-- The visibility condition of the "AI Interview" button on the ranking
page: `app.total_score && app.total_score >= 20 && !interviewStatus.hasData`
(so the button also shows while a non-completed interview exists). -/
def showAIInterviewButton (app : Application) : Bool :=
  !numFalsy app.total_score
    && decide (20 ≤ app.total_score.getD 0)
    && !(getInterviewStatus app.interviews).hasData

/-- The sort applied in `fetchApplications` on the ranking page:
`(data || []).sort((a, b) => (b.total_score || 0) - (a.total_score || 0))`
— a stable sort by `total_score || 0`, descending (modelled with the
stable `List.mergeSort`). -/
def sortApplications (apps : List Application) : List Application :=
  apps.mergeSort (fun a b => decide (b.total_score.getD 0 ≤ a.total_score.getD 0))

/-- The recommendation band rendered inline on the candidate detail page:
`combined >= 50` is "recommended", `combined >= 20` is
"semi-recommended", anything else — including `NaN`, for which both `>=`
comparisons are false — is "not recommended".  (The colour class next to
it in the source uses the same two conditions.) -/
def recommendationLabelDetail (app : Application) : String :=
  let scores := calculateScores app
  match scores.combined with
  | none => "❌ Nie rekomendowany"
  | some c =>
    if 50 ≤ c then "✅ Rekomendowany"
    else if 20 ≤ c then "⚠️ Częściowo rekomendowany"
    else "❌ Nie rekomendowany"

/-- The five pipeline stages. -/
inductive RecruitmentStage
  | new_applications
  | cv_screening
  | ai_interview
  | recruitment_task
  | decision
  deriving DecidableEq

/-- Function `getApplicationStage` from the candidates list page: falsy
`total_score` (null or 0) gives `new_applications`; empty `interviews`
gives `cv_screening`; a null `recruitment_task_status` gives
`ai_interview` — this test runs *before* the decision test — then a
present `candidate_decision` gives `decision`, and otherwise the stage is
`recruitment_task`. -/
def getApplicationStage (application : Application) : RecruitmentStage :=
  if numFalsy application.total_score then RecruitmentStage.new_applications
  else if application.interviews.isEmpty then RecruitmentStage.cv_screening
  else if application.recruitment_task_status.isNone then RecruitmentStage.ai_interview
  else if application.candidate_decision.isSome then RecruitmentStage.decision
  else RecruitmentStage.recruitment_task

/-- Function `getApplicationStage` from the candidate detail page (textually
identical to the copy on the candidates list page). -/
def getApplicationStageDetail (application : Application) : RecruitmentStage :=
  if numFalsy application.total_score then RecruitmentStage.new_applications
  else if application.interviews.isEmpty then RecruitmentStage.cv_screening
  else if application.recruitment_task_status.isNone then RecruitmentStage.ai_interview
  else if application.candidate_decision.isSome then RecruitmentStage.decision
  else RecruitmentStage.recruitment_task

/-- Function `getApplicationStage` from the dashboard page (textually identical to
the copy on the candidates list page). -/
def getApplicationStageDashboard (application : Application) : RecruitmentStage :=
  if numFalsy application.total_score then RecruitmentStage.new_applications
  else if application.interviews.isEmpty then RecruitmentStage.cv_screening
  else if application.recruitment_task_status.isNone then RecruitmentStage.ai_interview
  else if application.candidate_decision.isSome then RecruitmentStage.decision
  else RecruitmentStage.recruitment_task

/-- Concrete snapshot: technical score 80, no interviews. -/
def appTech80 : Application := ⟨some 80, [], none, none⟩

/-- Concrete snapshot: technical score 80 and a completed interview whose
assessment mapping holds one category scored 8. -/
def appSoft8 : Application := ⟨some 80, [⟨"completed", some [("a", 8)]⟩], none, none⟩

/-- Concrete snapshot: technical score 80 and a completed interview whose
assessment mapping is present but empty. -/
def appEmptyAssessment : Application := ⟨some 80, [⟨"completed", some []⟩], none, none⟩

/-- Concrete interview whose assessment mapping is present but empty. -/
def interviewEmptyAssessment : Interview := ⟨"completed", some []⟩

/-- Concrete snapshot: technical score 70 and a completed interview whose
assessment mapping is present but empty. -/
def appC5Empty : Application := ⟨some 70, [interviewEmptyAssessment], none, none⟩

/-- Concrete snapshot: scored, interviewed, no task yet, but a decision
has already been recorded. -/
def appDecisionNoTask : Application :=
  ⟨some 70, [⟨"completed", none⟩], none, some Decision.offered⟩

/-- Concrete snapshot: scored, interviewed, task sent, decision made. -/
def appDecisionTaskSent : Application :=
  ⟨some 70, [⟨"completed", none⟩], some TaskStatus.task_sent, some Decision.offered⟩

/-- Concrete snapshot: technical score 0 with an empty interview list. -/
def appZeroScore : Application := ⟨some 0, [], none, none⟩

/-- Concrete snapshot with two interviews whose assessments differ (the
first scored 2, the last scored 8). -/
def appTwoInterviews : Application :=
  ⟨some 0, [⟨"completed", some [("a", 2)]⟩, ⟨"completed", some [("a", 8)]⟩], none, none⟩

/-- Concrete snapshot whose combined score is exactly 50 on both pages
(no interview, so combined = total_score * 0.65). -/
def appCombined50 : Application := ⟨some (1000/13), [], none, none⟩

/-- Concrete snapshot whose combined score is exactly 20 on both pages. -/
def appCombined20 : Application := ⟨some (400/13), [], none, none⟩

/-- Concrete snapshot: qualified technical score 50 with one interview
still in status "scheduled". -/
def appScheduled : Application := ⟨some 50, [⟨"scheduled", none⟩], none, none⟩

/-- Concrete snapshot: technical score 60, no interview (combined 39). -/
def appTech60 : Application := ⟨some 60, [], none, none⟩

/-- Concrete snapshot: technical score 55 and a completed interview with
a perfect soft-skill assessment (combined 70.75). -/
def appTech55Soft10 : Application :=
  ⟨some 55, [⟨"completed", some [("communication", 10)]⟩], none, none⟩

/-!  Helper lemmas (shared across claims). -/

/-- The detail page and the candidates list page derive the stage with
textually identical functions. -/
theorem stageDetail_eq (app : Application) :
    getApplicationStageDetail app = getApplicationStage app := rfl

/-- The dashboard page and the candidates list page derive the stage with
textually identical functions. -/
theorem stageDashboard_eq (app : Application) :
    getApplicationStageDashboard app = getApplicationStage app := rfl

/-- Characterization of the candidates list page stage derivation as five
mutually exclusive cases. -/
theorem getApplicationStage_new_iff (app : Application) :
    getApplicationStage app = RecruitmentStage.new_applications ↔
      (app.total_score = none ∨ app.total_score = some 0) := by
  unfold getApplicationStage
  rcases hts : app.total_score with _ | t
  · simp [numFalsy]
  · by_cases ht : t = 0
    · simp [numFalsy, ht]
    · simp only [numFalsy, ht, decide_False, Bool.false_eq_true, if_false]
      split_ifs <;> simp_all

/-!  Claim C2. -/

/-- Claim C2 (counterexample): a snapshot in which candidateDecision is
present but recruitmentTaskStatus is null derives stage ai_interview, not
decision — the task-status test runs before the decision test, so a
decision does not win when the task status is null. -/
theorem decision_not_always_wins_cex :
    appDecisionNoTask.candidate_decision = some Decision.offered ∧
    appDecisionNoTask.recruitment_task_status = none ∧
    getApplicationStage appDecisionNoTask = RecruitmentStage.ai_interview ∧
    getApplicationStage appDecisionNoTask ≠ RecruitmentStage.decision ∧
    getApplicationStageDetail appDecisionNoTask ≠ RecruitmentStage.decision := by
  refine ⟨rfl, rfl, ?_, ?_, ?_⟩ <;> decide

/-- Claim C2 (amended): once a snapshot has a non-falsy technical score,
a non-empty interview list and a non-null recruitmentTaskStatus, a
present candidateDecision always makes the derived stage decision (so the
decision wins over both task_sent and task_completed, but not over a null
task status), on both cited pages. -/
theorem decision_wins_amended (app : Application)
    (h1 : numFalsy app.total_score = false)
    (h2 : app.interviews ≠ [])
    (h3 : app.recruitment_task_status ≠ none)
    (h4 : app.candidate_decision ≠ none) :
    getApplicationStage app = RecruitmentStage.decision ∧
    getApplicationStageDetail app = RecruitmentStage.decision := by
  have h : getApplicationStage app = RecruitmentStage.decision := by
    unfold getApplicationStage
    simp [h1, List.isEmpty_iff, h2, Option.isNone_iff_eq_none, h3,
      Option.isSome_iff_ne_none, h4]
  exact ⟨h, (stageDetail_eq app).trans h⟩

/-- Claim C2 (witness): the amended claim holds at a concrete snapshot
with a sent task and an offered decision. -/
theorem decision_wins_witness :
    (numFalsy appDecisionTaskSent.total_score = false ∧
      appDecisionTaskSent.interviews ≠ [] ∧
      appDecisionTaskSent.recruitment_task_status ≠ none ∧
      appDecisionTaskSent.candidate_decision ≠ none) ∧
    (getApplicationStage appDecisionTaskSent = RecruitmentStage.decision ∧
      getApplicationStageDetail appDecisionTaskSent = RecruitmentStage.decision) :=
  ⟨⟨by decide, by decide, by decide, by decide⟩,
    decision_wins_amended appDecisionTaskSent (by decide) (by decide) (by decide) (by decide)⟩

/-!  Claim C3. -/

/-- Claim C3 (counterexample): a snapshot whose technicalScore is present
and equal to 0, with an empty interview list, derives stage
new_applications, not cv_screening — the stage test uses JavaScript
truthiness, so the score 0 is treated like a missing score. -/
theorem stage_zero_score_cex :
    appZeroScore.total_score = some 0 ∧
    appZeroScore.interviews = [] ∧
    getApplicationStage appZeroScore = RecruitmentStage.new_applications ∧
    getApplicationStage appZeroScore ≠ RecruitmentStage.cv_screening ∧
    getApplicationStageDashboard appZeroScore = RecruitmentStage.new_applications := by
  refine ⟨rfl, rfl, ?_, ?_, ?_⟩ <;> decide

/-- Claim C3 (amended): the derived pipeline stage is new_applications
exactly when technicalScore is null or 0 (the falsy values), on both the
candidates list page and the dashboard. -/
theorem stage_new_iff_amended (app : Application) :
    (getApplicationStage app = RecruitmentStage.new_applications ↔
      (app.total_score = none ∨ app.total_score = some 0)) ∧
    (getApplicationStageDashboard app = RecruitmentStage.new_applications ↔
      (app.total_score = none ∨ app.total_score = some 0)) :=
  ⟨getApplicationStage_new_iff app,
    (stageDashboard_eq app) ▸ getApplicationStage_new_iff app⟩

/-!  Claim C9. -/

/-- Claim C9 (counterexample): at technicalScore 20 — and even 24 — the
ranking page qualification display reports the candidate as not
qualified; the display threshold is 25, not the standardized 20. -/
theorem qualification_threshold_cex :
    (getQualificationStatus (some 20)).status = "Nie kwalifikuje się" ∧
    (getQualificationStatus (some 20)).status ≠ "Kwalifikuje się do AI interview" ∧
    (getQualificationStatus (some 24)).status = "Nie kwalifikuje się" ∧
    (getQualificationStatus (some 25)).status = "Kwalifikuje się do AI interview" := by
  refine ⟨?_, ?_, ?_, ?_⟩ <;>
    simp only [getQualificationStatus, numFalsy] <;> norm_num <;> decide

/-- Claim C9 (amended): for every non-null technicalScore, the
qualification display reports the candidate as qualified iff
technicalScore is at least 25 (a score of 0 shows the separate label
"Nie oceniono", which is also not the qualified label). -/
theorem qualification_threshold_amended (t : ℚ) :
    (getQualificationStatus (some t)).status = "Kwalifikuje się do AI interview" ↔
      25 ≤ t := by
  unfold getQualificationStatus numFalsy
  by_cases ht : t = 0
  · subst ht
    norm_num
    decide
  · simp only [ht, decide_False, Bool.false_eq_true, if_false, Option.getD_some]
    split_ifs with h25
    · simp [h25]
    · simp only [h25, iff_false]
      decide

/-!  Claim C1. -/

/-- Claim C1 (counterexample): on a snapshot with technical score 80 whose
last interview carries a present-but-empty assessment mapping, the
aggregated soft-skill score is null (third conjunct, computed by the code
itself via getInterviewScore), so the claimed formula — with an absent
soft-skill score treated as 0 — predicts a combined score of 52.0; the
page instead divides by zero and produces NaN (modelled none), so the
combined score is not 52.0. -/
theorem combined_formula_cex :
    (calculateCombinedScore appEmptyAssessment).combined = none ∧
    (calculateCombinedScore appEmptyAssessment).combined ≠ some 52 ∧
    appEmptyAssessment.interviews.getLast?.bind getInterviewScore = none := by
  refine ⟨?_, ?_, ?_⟩ <;> decide

/-- Claim C1 (amended): for every snapshot whose authoritative (last)
interview assessment mapping is not present-but-empty, the combined
ranking score equals technicalScore * 0.65 + softSkillsNormalized * 0.35,
where technicalScore is total_score with null treated as 0,
softSkillsNormalized rescales the aggregated 0..10 soft-skill score by
×10, and an absent (null) soft-skill score is treated as 0.  (On a
present-but-empty mapping the code instead produces NaN; see the
counterexample.) -/
theorem combined_formula_amended (app : Application)
    (h : app.interviews.getLast?.bind Interview.overall_assessment ≠ some []) :
    (calculateCombinedScore app).combined =
      some (app.total_score.getD 0 * (65/100) +
        ((app.interviews.getLast?.bind getInterviewScore).getD 0 * 10) * (35/100)) := by
  unfold calculateCombinedScore
  rcases hl : app.interviews.getLast? with _ | iv
  · simp [hl]
  · rcases ha : iv.overall_assessment with _ | m
    · simp [hl, getInterviewScore, ha]
    · rcases m with _ | ⟨p, tl⟩
      · exact absurd (by rw [hl, Option.some_bind, ha]) h
      · simp [hl, ha, getInterviewScore, Option.some_bind]

/-- Claim C1 (witness): the amended formula evaluated at a snapshot with
technical score 80 and a single-category assessment scored 8. -/
theorem combined_formula_witness :
    (appSoft8.interviews.getLast?.bind Interview.overall_assessment ≠ some []) ∧
    (calculateCombinedScore appSoft8).combined =
      some (appSoft8.total_score.getD 0 * (65/100) +
        ((appSoft8.interviews.getLast?.bind getInterviewScore).getD 0 * 10) * (35/100)) :=
  ⟨by decide, combined_formula_amended appSoft8 (by decide)⟩

/-!  Claim C4. -/

/-- Claim C4 (counterexample): on a snapshot with two interviews whose
assessments differ, the ranking page reads the last interview (soft-skill
component 80) while the detail page reads the first (soft-skill component
20), so the two places that compute the score disagree. -/
theorem first_vs_last_interview_cex :
    (calculateScores appTwoInterviews).softSkills = some 20 ∧
    (calculateCombinedScore appTwoInterviews).softSkills = some 80 ∧
    calculateScores appTwoInterviews ≠ calculateCombinedScore appTwoInterviews := by
  refine ⟨?_, ?_, ?_⟩ <;>
    simp [calculateScores, calculateCombinedScore, appTwoInterviews] <;> norm_num

/-- Claim C4 (amended): the ranking page reads the last interview and the
detail page reads the first, so the two score computations agree whenever
the interview list has at most one element (in particular for every
snapshot with exactly one interview), but not in general. -/
theorem first_vs_last_interview_amended (app : Application)
    (h : app.interviews.length ≤ 1) :
    calculateScores app = calculateCombinedScore app := by
  unfold calculateScores calculateCombinedScore
  rcases happ : app.interviews with _ | ⟨iv, _ | ⟨iv2, tl⟩⟩
  · rfl
  · rfl
  · rw [happ] at h
    simp at h

/-- Claim C4 (witness): the amended claim at the concrete one-interview
snapshot appSoft8. -/
theorem first_vs_last_interview_witness :
    appSoft8.interviews.length ≤ 1 ∧
    calculateScores appSoft8 = calculateCombinedScore appSoft8 :=
  ⟨by decide, first_vs_last_interview_amended appSoft8 (by decide)⟩

/-!  Claim C5. -/

/-- Claim C5 (code bug): getInterviewScore behaves as the claim states —
null for an empty mapping and for an absent one, and the arithmetic mean
otherwise (conjuncts 1-3 include the two cited examples) — but the inline
soft-skill aggregation in calculateCombinedScore does not guard its
division: on a snapshot whose last interview carries a present-but-empty
assessment mapping it computes (0 / 0) * 10 = NaN (modelled none), which
propagates to the combined score, instead of treating the empty mapping
as null soft-skill data. -/
theorem soft_skill_empty_mapping_bug :
    getInterviewScore interviewEmptyAssessment = none ∧
    getInterviewScore ⟨"completed", none⟩ = none ∧
    getInterviewScore ⟨"completed", some [("a", 10), ("b", 0)]⟩ = some 5 ∧
    (calculateCombinedScore appC5Empty).softSkills = none ∧
    (calculateCombinedScore appC5Empty).combined = none := by
  refine ⟨?_, ?_, ?_, ?_, ?_⟩ <;>
    simp [getInterviewScore, calculateCombinedScore, appC5Empty,
      interviewEmptyAssessment] <;> norm_num

/-!  Claim C6. -/

/-- Claim C6 (counterexample): at combined score exactly 50 the ranking
page badge is semi-recommended but the candidate detail page label is
recommended, and at combined score exactly 20 the ranking page badge is
not-recommended but the detail page label is semi-recommended — so the
two places the band is derived do not agree at the boundaries. -/
theorem recommendation_bands_cex :
    (calculateScores appCombined50).combined = some 50 ∧
    (getRecommendationBadge appCombined50).text = "🤔 Semi-rekomendowany" ∧
    recommendationLabelDetail appCombined50 = "✅ Rekomendowany" ∧
    (calculateScores appCombined20).combined = some 20 ∧
    (getRecommendationBadge appCombined20).text = "❌ Nie rekomendowany" ∧
    recommendationLabelDetail appCombined20 = "⚠️ Częściowo rekomendowany" := by
  refine ⟨?_, ?_, ?_, ?_, ?_, ?_⟩ <;>
    simp [calculateScores, calculateCombinedScore, getRecommendationBadge,
      recommendationLabelDetail, appCombined50, appCombined20] <;> norm_num

/-- Claim C6 (amended): the ranking page badge follows the claimed bands
exactly (not recommended iff combined <= 20, semi-recommended iff
20 < combined <= 50, recommended iff combined > 50), but the detail page
label uses the thresholds with the opposite boundary inclusions
(recommended iff combined >= 50, semi-recommended iff 20 <= combined < 50,
not recommended iff combined < 20), so the two derivations disagree at
exactly the boundary values 20 and 50. -/
theorem recommendation_bands_amended (app : Application) (c c2 : ℚ)
    (h : (calculateCombinedScore app).combined = some c)
    (h2 : (calculateScores app).combined = some c2) :
    ((getRecommendationBadge app).text = "❌ Nie rekomendowany" ↔ c ≤ 20) ∧
    ((getRecommendationBadge app).text = "🤔 Semi-rekomendowany" ↔ 20 < c ∧ c ≤ 50) ∧
    ((getRecommendationBadge app).text = "✅ Rekomendowany" ↔ 50 < c) ∧
    (recommendationLabelDetail app = "✅ Rekomendowany" ↔ 50 ≤ c2) ∧
    (recommendationLabelDetail app = "⚠️ Częściowo rekomendowany" ↔
      20 ≤ c2 ∧ c2 < 50) ∧
    (recommendationLabelDetail app = "❌ Nie rekomendowany" ↔ c2 < 20) := by
  unfold getRecommendationBadge recommendationLabelDetail
  simp only [h, h2]
  refine ⟨?_, ?_, ?_, ?_, ?_, ?_⟩ <;> split_ifs <;>
    simp_all <;> first | decide | linarith

/-- Claim C6 (witness): the amended band characterization evaluated at a
snapshot whose combined score is 52 on both pages. -/
theorem recommendation_bands_witness :
    ((calculateCombinedScore appTech80).combined = some 52 ∧
      (calculateScores appTech80).combined = some 52) ∧
    (((getRecommendationBadge appTech80).text = "❌ Nie rekomendowany" ↔ (52:ℚ) ≤ 20) ∧
      ((getRecommendationBadge appTech80).text = "🤔 Semi-rekomendowany" ↔
        (20:ℚ) < 52 ∧ (52:ℚ) ≤ 50) ∧
      ((getRecommendationBadge appTech80).text = "✅ Rekomendowany" ↔ (50:ℚ) < 52) ∧
      (recommendationLabelDetail appTech80 = "✅ Rekomendowany" ↔ (50:ℚ) ≤ 52) ∧
      (recommendationLabelDetail appTech80 = "⚠️ Częściowo rekomendowany" ↔
        (20:ℚ) ≤ 52 ∧ (52:ℚ) < 50) ∧
      (recommendationLabelDetail appTech80 = "❌ Nie rekomendowany" ↔ (52:ℚ) < 20)) :=
  ⟨⟨by simp [calculateCombinedScore, appTech80]; norm_num,
    by simp [calculateScores, appTech80]; norm_num⟩,
    recommendation_bands_amended appTech80 52 52
      (by simp [calculateCombinedScore, appTech80]; norm_num)
      (by simp [calculateScores, appTech80]; norm_num)⟩

/-!  Claim C7. -/

/-- Claim C7 (confirmed): canSendRecruitmentTask — the canSend flag of
getTaskStatus — holds exactly when the combined score is at least 50 and
recruitmentTaskStatus is null; it is false whenever the combined score is
below 50 (or NaN) regardless of task status, true at exactly 50 when no
task has been sent, and false once the status is task_sent or
task_completed. -/
theorem canSendRecruitmentTask_iff (app : Application) :
    (getTaskStatus app).canSend = true ↔
      ((∃ c, (calculateCombinedScore app).combined = some c ∧ 50 ≤ c) ∧
        app.recruitment_task_status = none) := by
  unfold getTaskStatus
  rcases hc : (calculateCombinedScore app).combined with _ | c
  · simp [hc]
  · rcases hts : app.recruitment_task_status with _ | ts
    · by_cases h50 : 50 ≤ c <;> simp [hc, hts, h50]
    · cases ts <;> by_cases h50 : 50 ≤ c <;> simp [hc, hts, h50]

/-!  Claim C8. -/

/-- Claim C8 (counterexample): a snapshot with technical score 50 and one
interview still in status "scheduled" has a non-empty interview list, yet
the AI-Interview action is offered — the gate only excludes a *completed*
last interview, not every existing interview as the claim states. -/
theorem interview_eligibility_cex :
    appScheduled.interviews ≠ [] ∧
    showAIInterviewButton appScheduled = true := by
  refine ⟨?_, ?_⟩ <;> decide

/-- Claim C8 (amended): the AI-Interview action is offered exactly when
technicalScore is present with value at least 20 and the interview list
is empty or its last interview is not in status "completed" — so a
candidate with an interview still scheduled or in progress is offered the
action again, contrary to the empty-list condition of the claim. -/
theorem interview_eligibility_amended (app : Application) :
    showAIInterviewButton app = true ↔
      ((∃ t, app.total_score = some t ∧ 20 ≤ t) ∧
        (app.interviews = [] ∨
          ∃ iv, app.interviews.getLast? = some iv ∧ iv.status ≠ "completed")) := by
  unfold showAIInterviewButton getInterviewStatus numFalsy
  rcases hts : app.total_score with _ | t
  · simp
  · rcases hl : app.interviews.getLast? with _ | iv
    · have he : app.interviews = [] := List.getLast?_eq_none_iff.mp hl
      by_cases ht : 20 ≤ t
      · have ht0 : ¬ t = 0 := by rintro rfl; norm_num at ht
        simp [he, ht, ht0]
      · by_cases ht0 : t = 0 <;> simp [he, ht, ht0]
    · have hne : app.interviews ≠ [] := by
        intro he
        rw [he] at hl
        simp at hl
      by_cases hcomp : iv.status = "completed"
      · by_cases ht : 20 ≤ t
        · have ht0 : ¬ t = 0 := by rintro rfl; norm_num at ht
          simp [hl, hne, hcomp, ht, ht0]
        · by_cases ht0 : t = 0 <;> simp [hl, hne, hcomp, ht, ht0]
      · by_cases ht : 20 ≤ t
        · have ht0 : ¬ t = 0 := by rintro rfl; norm_num at ht
          simp [hl, hne, hcomp, ht, ht0]
          split_ifs <;> rfl
        · by_cases ht0 : t = 0 <;> simp [hl, hne, hcomp, ht, ht0]

/-!  Claim C10. -/

/-- Claim C10 (counterexample): the fetched ranking list is sorted by
technical score alone; a candidate with technical score 60 and no
interview (combined 39) is placed before a candidate with technical score
55 whose completed interview scored a perfect 10 (combined 70.75), even
though the latter has the higher combined score. -/
theorem ranking_sort_cex :
    sortApplications [appTech55Soft10, appTech60] = [appTech60, appTech55Soft10] ∧
    (calculateCombinedScore appTech60).combined = some 39 ∧
    (calculateCombinedScore appTech55Soft10).combined = some (283/4) ∧
    (39 : ℚ) < 283/4 := by
  refine ⟨?_, ?_, ?_, by norm_num⟩
  · simp [sortApplications, List.mergeSort, appTech60, appTech55Soft10]
    norm_num
  · simp [calculateCombinedScore, appTech60]; norm_num
  · simp [calculateCombinedScore, appTech55Soft10]; norm_num

/-- Claim C10 (amended): the candidate ranking list is ordered by the
technical score (total_score, with null treated as 0), descending — not
by the combined ranking score: the sort emits a permutation of the input
in which every earlier element has a technical-score key at least as
large as every later one. -/
theorem ranking_sort_amended (apps : List Application) :
    List.Sorted (fun a b : Application =>
        b.total_score.getD 0 ≤ a.total_score.getD 0) (sortApplications apps) ∧
      (sortApplications apps).Perm apps := by
  constructor
  · have htrans : ∀ a b c : Application,
        (decide (b.total_score.getD 0 ≤ a.total_score.getD 0)) = true →
        (decide (c.total_score.getD 0 ≤ b.total_score.getD 0)) = true →
        (decide (c.total_score.getD 0 ≤ a.total_score.getD 0)) = true := by
      intro a b c hab hbc
      simp only [decide_eq_true_eq] at *
      exact le_trans hbc hab
    have htotal : ∀ a b : Application,
        ((decide (b.total_score.getD 0 ≤ a.total_score.getD 0))
          || (decide (a.total_score.getD 0 ≤ b.total_score.getD 0))) = true := by
      intro a b
      simp only [Bool.or_eq_true, decide_eq_true_eq]
      exact le_total _ _
    have h := List.sorted_mergeSort htrans htotal apps
    unfold sortApplications
    exact List.Pairwise.imp (fun hb => by simpa using hb) h
  · exact List.mergeSort_perm apps _

end Recruit
